import Mathlib

/-!
Shallow embedding of `src/unifi_client/unifi.py` (class `UniFiApiClient`),
the session-lifecycle and request-execution core of the unifi-client-python
repository, together with proofs about the claims of its specification.

Conventions used throughout:
* Python exceptions become `Except` values (`PyErr` distinguishes the
  `ValueError` raised by validation from the `TypeError` CPython raises when
  comparing offset-naive and offset-aware datetimes).
* Truthiness of optional string arguments (`if x:`) is modelled by `truthy`:
  `None` and the empty string are falsy.
* Error-message strings are reproduced from the source with quote characters
  elided.
* `datetime.strptime` (CPython standard library, not repository code) is
  modelled character-by-character for the two format strings the source uses,
  following the regular expressions of CPython `_strptime` and the range
  checks of the `datetime` constructor.
-/

namespace UnifiClient

/-- Python exception kinds raised synchronously by the client: `ValueError`
(validation failures) and `TypeError` (comparison of offset-naive with
offset-aware datetimes). -/
inductive PyErr where
  | valueError (msg : String)
  | typeError (msg : String)
  deriving DecidableEq, Repr

/-- Python truthiness of an `Optional[str]` argument: `None` and `""` are
falsy, every non-empty string is truthy. -/
def truthy : Option String → Bool
  | none => false
  | some s => !s.isEmpty

/-- Python truthiness of an `Optional[list[str]]` argument. -/
def truthyList : Option (List String) → Bool
  | none => false
  | some l => !l.isEmpty

/-! ### Model of `datetime.strptime` for the two formats used by
`_validate_rfc3339`. -/

/-- Numeric value of a decimal digit character. -/
def digitVal (c : Char) : Nat := c.toNat - 48

/-- Parse exactly four decimal digits (the `%Y` directive of CPython
strptime matches `\d\d\d\d`). -/
def parseYear : List Char → Option (Nat × List Char)
  | a :: b :: c :: d :: rest =>
    if a.isDigit && b.isDigit && c.isDigit && d.isDigit then
      some (((digitVal a * 10 + digitVal b) * 10 + digitVal c) * 10 + digitVal d, rest)
    else none
  | _ => none

/-- Parse a one-or-two digit numeric field. Mirrors the strptime regular
expressions such as `1[0-2]|0[1-9]|[1-9]` for `%m`: the two-digit
alternatives come first, so two digits are consumed whenever they form a
value accepted by a two-digit alternative (`valid2`), and otherwise a single
digit accepted by the one-digit alternative (`valid1`) is consumed. Because
every numeric field in the formats at hand is followed by a non-digit
character, this deterministic rule coincides with the backtracking regex
match. -/
def parseField (valid2 valid1 : Nat → Bool) : List Char → Option (Nat × List Char)
  | a :: b :: rest =>
    if a.isDigit && b.isDigit && valid2 (digitVal a * 10 + digitVal b) then
      some (digitVal a * 10 + digitVal b, rest)
    else if a.isDigit && valid1 (digitVal a) then
      some (digitVal a, b :: rest)
    else none
  | [a] => if a.isDigit && valid1 (digitVal a) then some (digitVal a, []) else none
  | [] => none

/-- Parse one literal character. -/
def parseLit (ch : Char) : List Char → Option (List Char)
  | c :: rest => if c = ch then some rest else none
  | [] => none

/-- Consume up to `n` leading decimal digits, returning their values. -/
def takeDigits : Nat → List Char → (List Nat × List Char)
  | 0, cs => ([], cs)
  | _ + 1, [] => ([], [])
  | n + 1, c :: cs =>
    if c.isDigit then
      let (ds, rest) := takeDigits n cs
      (digitVal c :: ds, rest)
    else ([], c :: cs)

/-- Parse the `%f` directive: one to six digits, right-padded to a
microsecond count (CPython pads the matched digits with zeros on the
right). -/
def parseFrac (cs : List Char) : Option (Nat × List Char) :=
  let (ds, rest) := takeDigits 6 cs
  if ds.isEmpty then none
  else some (ds.foldl (fun acc d => acc * 10 + d) 0 * 10 ^ (6 - ds.length), rest)

/-- Parse exactly two decimal digits whose value satisfies `valid`. -/
def parseTwoDigits (valid : Nat → Bool) : List Char → Option (Nat × List Char)
  | a :: b :: rest =>
    if a.isDigit && b.isDigit && valid (digitVal a * 10 + digitVal b) then
      some (digitVal a * 10 + digitVal b, rest)
    else none
  | _ => none

/-- Parse the optional seconds part of a `%z` offset,
`(:?[0-5]\d(\.\d{1,6})?)?`, returning the contributed microseconds and the
remaining input (nothing is consumed when the group does not match). -/
def parseTzSecondsPart (cs : List Char) : Nat × List Char :=
  let attempt : Option (Nat × List Char) :=
    let cs1 := match cs with
      | ':' :: r => r
      | r => r
    match parseTwoDigits (fun v => decide (v ≤ 59)) cs1 with
    | none => none
    | some (ss, cs2) =>
      match cs2 with
      | '.' :: cs3 =>
        match parseFrac cs3 with
        | some (us, cs4) => some (ss * 1000000 + us, cs4)
        | none => some (ss * 1000000, '.' :: cs3)
      | _ => some (ss * 1000000, cs2)
  match attempt with
  | some r => r
  | none => (0, cs)

/-- Parse the body of a `%z` offset after the sign: `\d\d:?[0-5]\d` plus the
optional seconds group; result is the offset magnitude in microseconds. -/
def parseTzBody (cs : List Char) : Option (Nat × List Char) :=
  match parseTwoDigits (fun _ => true) cs with
  | none => none
  | some (hh, cs1) =>
    let cs2 := match cs1 with
      | ':' :: r => r
      | r => r
    match parseTwoDigits (fun v => decide (v ≤ 59)) cs2 with
    | none => none
    | some (mm, cs3) =>
      let (extra, cs4) := parseTzSecondsPart cs3
      some ((hh * 3600 + mm * 60) * 1000000 + extra, cs4)

/-- Parse the `%z` directive (signed UTC offset), returning microseconds.
The `Z` alternative of the directive is unreachable here because the code
path using `%z` is only taken for strings that do not end in `Z`. -/
def parseTz (cs : List Char) : Option (Int × List Char) :=
  match cs with
  | '+' :: rest => (parseTzBody rest).map (fun p => ((p.1 : Int), p.2))
  | '-' :: rest => (parseTzBody rest).map (fun p => (-(p.1 : Int), p.2))
  | _ => none

/-- Parsed datetime, the model of a CPython `datetime` object. `tzOffsetUs`
is `none` for an offset-naive datetime (the `...Z` format, whose trailing
`Z` is a literal, not a parsed zone) and `some off` (microseconds east of
UTC) for an offset-aware one (the `%z` format). -/
structure DT where
  year : Nat
  month : Nat
  day : Nat
  hour : Nat
  minute : Nat
  second : Nat
  usec : Nat
  tzOffsetUs : Option Int
  deriving DecidableEq, Repr

/-- Gregorian leap-year test, as in CPython `datetime`. -/
def isLeap (y : Nat) : Bool := (y % 4 == 0 && y % 100 != 0) || y % 400 == 0

/-- Number of days in a month, as in CPython `datetime`. -/
def daysInMonth (y m : Nat) : Nat :=
  if m == 2 then (if isLeap y then 29 else 28)
  else if m == 4 || m == 6 || m == 9 || m == 11 then 30
  else 31

/-- Range checks the CPython `datetime` constructor performs on the values
strptime extracted (it raises `ValueError` when they fail, which
`_validate_rfc3339` converts into its own `ValueError`). -/
def dtValid (d : DT) : Bool :=
  decide (1 ≤ d.year) && decide (d.year ≤ 9999) &&
  decide (1 ≤ d.month) && decide (d.month ≤ 12) &&
  decide (1 ≤ d.day) && decide (d.day ≤ daysInMonth d.year d.month) &&
  decide (d.hour ≤ 23) && decide (d.minute ≤ 59) && decide (d.second ≤ 59) &&
  decide (d.usec ≤ 999999) &&
  (match d.tzOffsetUs with
   | none => true
   | some off => decide (-(86400000000 : Int) < off) && decide (off < 86400000000))

/-- Parse the shared prefix `%Y-%m-%dT%H:%M:%S.%f` of both format strings,
following the CPython strptime regular expressions for each directive. -/
def parseDateTimeFields (cs : List Char) :
    Option ((Nat × Nat × Nat × Nat × Nat × Nat × Nat) × List Char) :=
  match parseYear cs with
  | none => none
  | some (y, cs) =>
    match parseLit '-' cs with
    | none => none
    | some cs =>
      match parseField (fun v => decide (1 ≤ v) && decide (v ≤ 12)) (fun v => decide (1 ≤ v)) cs with
      | none => none
      | some (mo, cs) =>
        match parseLit '-' cs with
        | none => none
        | some cs =>
          match parseField (fun v => decide (1 ≤ v) && decide (v ≤ 31)) (fun v => decide (1 ≤ v)) cs with
          | none => none
          | some (d, cs) =>
            match parseLit 'T' cs with
            | none => none
            | some cs =>
              match parseField (fun v => decide (v ≤ 23)) (fun _ => true) cs with
              | none => none
              | some (h, cs) =>
                match parseLit ':' cs with
                | none => none
                | some cs =>
                  match parseField (fun v => decide (v ≤ 59)) (fun _ => true) cs with
                  | none => none
                  | some (mi, cs) =>
                    match parseLit ':' cs with
                    | none => none
                    | some cs =>
                      match parseField (fun v => decide (v ≤ 61)) (fun _ => true) cs with
                      | none => none
                      | some (s, cs) =>
                        match parseLit '.' cs with
                        | none => none
                        | some cs =>
                          match parseFrac cs with
                          | none => none
                          | some (us, cs) => some ((y, mo, d, h, mi, s, us), cs)

/-- Model of `datetime.strptime(ts, "%Y-%m-%dT%H:%M:%S.%fZ")` (full-string
match required, then constructor range checks). -/
def strptimeZFormat (cs : List Char) : Option DT :=
  match parseDateTimeFields cs with
  | none => none
  | some ((y, mo, d, h, mi, s, us), cs) =>
    match parseLit 'Z' cs with
    | none => none
    | some cs =>
      if cs.isEmpty then
        let dt : DT := ⟨y, mo, d, h, mi, s, us, none⟩
        if dtValid dt then some dt else none
      else none

/-- Model of `datetime.strptime(ts, "%Y-%m-%dT%H:%M:%S.%f%z")`. -/
def strptimeOffsetFormat (cs : List Char) : Option DT :=
  match parseDateTimeFields cs with
  | none => none
  | some ((y, mo, d, h, mi, s, us), cs) =>
    match parseTz cs with
    | none => none
    | some (off, cs) =>
      if cs.isEmpty then
        let dt : DT := ⟨y, mo, d, h, mi, s, us, some off⟩
        if dtValid dt then some dt else none
      else none

/-- Model of `UniFiApiClient._validate_rfc3339` as a partial parse: strings
ending in `Z` are parsed with the `%fZ` format; otherwise the character at
index -3 is deleted (`timestamp[:-3] + timestamp[-2:]`, intended to strip
the colon of a `±HH:MM` offset) and the result is parsed with the `%f%z`
format. `none` means the source method raises `ValueError`. -/
def parseRFC3339 (timestamp : String) : Option DT :=
  let cs := timestamp.toList
  if cs.getLast? = some 'Z' then
    strptimeZFormat cs
  else
    strptimeOffsetFormat (cs.take (cs.length - 3) ++ cs.drop (cs.length - 2))

/-- Model of `UniFiApiClient._validate_rfc3339`, with the `ValueError` it
raises on malformed input. -/
def validateRFC3339 (timestamp : String) : Except PyErr DT :=
  match parseRFC3339 timestamp with
  | some dt => .ok dt
  | none =>
    .error (.valueError ("Invalid RFC3339 timestamp format: " ++ timestamp ++
      ". Expected format: YYYY-MM-DDTHH:MM:SS.sssZ or YYYY-MM-DDTHH:MM:SS.sss±HH:MM"))

/-! ### Datetime comparison, as performed by `end_dt <= begin_dt` in
`_validate_timestamp_range`. -/

/-- Days in the months strictly before month `m` of year `y`. -/
def daysBeforeMonth (y m : Nat) : Nat :=
  (List.range (m - 1)).foldl (fun acc i => acc + daysInMonth y (i + 1)) 0

/-- Proleptic Gregorian ordinal of a date, as CPython
`datetime.toordinal`. -/
def toOrdinal (y m d : Nat) : Nat :=
  365 * (y - 1) + (y - 1) / 4 - (y - 1) / 100 + (y - 1) / 400 + daysBeforeMonth y m + d

/-- Microseconds represented by the date-time fields of a `DT`, ignoring any
zone offset. Two naive datetimes compare exactly as these keys do. -/
def fieldsKeyUs (d : DT) : Int :=
  (toOrdinal d.year d.month d.day : Int) * 86400000000 +
    ((d.hour * 3600 + d.minute * 60 + d.second : Nat) : Int) * 1000000 + (d.usec : Int)

/-- Instant key of a `DT`: the UTC instant for an aware datetime, and the
raw field key for a naive one. Two aware datetimes compare exactly as these
keys do. -/
def dtInstantUs (d : DT) : Int :=
  fieldsKeyUs d - d.tzOffsetUs.getD 0

/-- Model of CPython datetime `<=`: naive/naive compares field-by-field,
aware/aware compares UTC instants, and a mixed comparison raises
`TypeError`. -/
def dtLe (a b : DT) : Except PyErr Bool :=
  match a.tzOffsetUs, b.tzOffsetUs with
  | none, none => .ok (decide (fieldsKeyUs a ≤ fieldsKeyUs b))
  | some _, some _ => .ok (decide (dtInstantUs a ≤ dtInstantUs b))
  | _, _ => .error (.typeError "cannot compare offset-naive and offset-aware datetimes")

/-- Model of `UniFiApiClient._validate_timestamp_range`. When either bound
is falsy (`if not (begin_timestamp and end_timestamp): return`) nothing is
validated; otherwise both strings are parsed and `end_dt <= begin_dt`
triggers the `ValueError`. -/
def validateTimestampRange (begin_timestamp end_timestamp : Option String) :
    Except PyErr Unit :=
  match begin_timestamp, end_timestamp with
  | some bs, some es =>
    if bs.isEmpty || es.isEmpty then .ok ()
    else
      match validateRFC3339 bs with
      | .error err => .error err
      | .ok begin_dt =>
        match validateRFC3339 es with
        | .error err => .error err
        | .ok end_dt =>
          match dtLe end_dt begin_dt with
          | .error err => .error err
          | .ok le =>
            if le then
              .error (.valueError
                "end_timestamp must be strictly greater than begin_timestamp")
            else .ok ()
  | _, _ => .ok ()

/-! ### Requests built by the endpoint methods. -/

/-- Values placed in a JSON request body by `query_isp_metrics`. -/
inductive BodyVal where
  | str (s : String)
  | strList (l : List String)
  deriving DecidableEq, Repr

/-- The HTTP request an endpoint method hands to `_make_request`: method,
endpoint path (relative to the base URL), query parameters and JSON body.
An endpoint method returning `.ok r` models reaching the network layer with
request `r`; returning `.error` models raising before any network
interaction. -/
structure Request where
  method : String
  path : String
  params : List (String × String)
  body : List (String × BodyVal)
  deriving DecidableEq, Repr

/-- Add a query parameter or omit it, following the `if x: params[k] = x`
pattern of the source (falsy values are omitted). -/
def optParam (key : String) : Option String → List (String × String)
  | some s => if s.isEmpty then [] else [(key, s)]
  | none => []

/-- Body analogue of `optParam`. -/
def optBody (key : String) : Option String → List (String × BodyVal)
  | some s => if s.isEmpty then [] else [(key, .str s)]
  | none => []

/-- Body entry for an optional list argument (falsy, i.e. empty or absent,
lists are omitted). -/
def optBodyList (key : String) : Option (List String) → List (String × BodyVal)
  | some l => if l.isEmpty then [] else [(key, .strList l)]
  | none => []

/-- Model of the `_validate_page_size` decorator: the wrapper checks
`1 <= page_size <= 100` and then calls the wrapped endpoint body with the
same `page_size`. -/
def validate_page_size (page_size : Int) (func : Int → Except PyErr Request) :
    Except PyErr Request :=
  if ¬ (1 ≤ page_size ∧ page_size ≤ 100) then
    .error (.valueError "page_size must be between 1 and 100")
  else func page_size

/-- Body of `list_hosts` (the function wrapped by `_validate_page_size`). -/
def list_hosts_request (page_size : Int) (next_token : Option String) :
    Except PyErr Request :=
  .ok { method := "GET", path := "hosts",
        params := [("pageSize", toString page_size)] ++ optParam "nextToken" next_token,
        body := [] }

/-- Model of `UniFiApiClient.list_hosts`. -/
def list_hosts (page_size : Int) (next_token : Option String) : Except PyErr Request :=
  validate_page_size page_size (fun ps => list_hosts_request ps next_token)

/-- Body of `list_sites` (the function wrapped by `_validate_page_size`). -/
def list_sites_request (page_size : Int) (next_token : Option String) :
    Except PyErr Request :=
  .ok { method := "GET", path := "sites",
        params := [("pageSize", toString page_size)] ++ optParam "nextToken" next_token,
        body := [] }

/-- Model of `UniFiApiClient.list_sites`. -/
def list_sites (page_size : Int) (next_token : Option String) : Except PyErr Request :=
  validate_page_size page_size (fun ps => list_sites_request ps next_token)

/-- Body of `list_devices`: validates `time` when truthy, then builds the
query parameters (`hostIds` comma-joined). -/
def list_devices_request (time : Option String) (host_ids : Option (List String))
    (page_size : Int) (next_token : Option String) : Except PyErr Request :=
  match (if truthy time then
           match validateRFC3339 (time.getD "") with
           | .error err => .error err
           | .ok _ => .ok ()
         else .ok () : Except PyErr Unit) with
  | .error err => .error err
  | .ok _ =>
    .ok { method := "GET", path := "devices",
          params := [("pageSize", toString page_size)] ++ optParam "nextToken" next_token ++
            optParam "time" time ++
            (if truthyList host_ids then
               [("hostIds", String.intercalate "," (host_ids.getD []))]
             else []),
          body := [] }

/-- Model of `UniFiApiClient.list_devices`. -/
def list_devices (time : Option String) (host_ids : Option (List String))
    (page_size : Int) (next_token : Option String) : Except PyErr Request :=
  validate_page_size page_size
    (fun ps => list_devices_request time host_ids ps next_token)

/-- Model of `UniFiApiClient.get_isp_metrics`: validates the interval type,
the duration/timestamp exclusivity, and (when a timestamp bound is truthy)
the timestamp range, then issues a GET with query parameters. -/
def get_isp_metrics (type : String)
    (begin_timestamp end_timestamp duration : Option String) :
    Except PyErr Request :=
  if ¬ (type = "5m" ∨ type = "1h") then
    .error (.valueError "type parameter must be either 5m or 1h")
  else if truthy duration && (truthy begin_timestamp || truthy end_timestamp) then
    .error (.valueError "duration cannot be used with begin_timestamp or end_timestamp")
  else
    match (if truthy begin_timestamp || truthy end_timestamp then
             validateTimestampRange begin_timestamp end_timestamp
           else .ok ()) with
    | .error err => .error err
    | .ok _ =>
      .ok { method := "GET", path := "ea/isp-metrics/" ++ type,
            params := optParam "duration" duration ++
              optParam "beginTimestamp" begin_timestamp ++
              optParam "endTimestamp" end_timestamp,
            body := [] }

/-- Model of `UniFiApiClient.query_isp_metrics`: same validation as
`get_isp_metrics`, then a POST whose JSON body carries the filters. -/
def query_isp_metrics (type : String)
    (begin_timestamp end_timestamp duration : Option String)
    (site_ids host_ids : Option (List String)) : Except PyErr Request :=
  if ¬ (type = "5m" ∨ type = "1h") then
    .error (.valueError "type parameter must be either 5m or 1h")
  else if truthy duration && (truthy begin_timestamp || truthy end_timestamp) then
    .error (.valueError "duration cannot be used with begin_timestamp or end_timestamp")
  else
    match (if truthy begin_timestamp || truthy end_timestamp then
             validateTimestampRange begin_timestamp end_timestamp
           else .ok ()) with
    | .error err => .error err
    | .ok _ =>
      .ok { method := "POST", path := "ea/isp-metrics/" ++ type ++ "/query",
            params := [],
            body := optBody "duration" duration ++
              optBody "beginTimestamp" begin_timestamp ++
              optBody "endTimestamp" end_timestamp ++
              optBodyList "siteIds" site_ids ++
              optBodyList "hostIds" host_ids }

/-! ### Session lifecycle (`__init__`, the `session` property,
`refresh_session`, `close`).

Object identity of `requests.Session` instances is modelled by a session id
`sid`; the client carries an allocation counter `nextSid`, and
`_create_session` returns a session whose `sid` is the current counter
value, so distinct allocations made by one client have distinct ids.
Releasing transport resources (`session.close()`) is modelled by returning
the list of sids closed during an operation; `datetime.now()` readings are
supplied as an `Int` (seconds) argument. -/

/-- Pooling parameters of the `HTTPAdapter` mounted by
`_create_session`. -/
structure PoolAdapter where
  pool_connections : Nat
  pool_maxsize : Nat
  max_retries : Nat
  pool_block : Bool
  deriving DecidableEq, Repr

/-- A configured `requests.Session`: identity, default headers, mounted
adapter. -/
structure Session where
  sid : Nat
  headers : List (String × String)
  adapter : PoolAdapter
  deriving DecidableEq, Repr

/-- State of a `UniFiApiClient`: the immutable configuration set by
`__init__` plus the mutable session slot, its creation timestamp (seconds),
and the identity-allocation counter. -/
structure Client where
  api_key : String
  api_version : String
  base_url : String
  timeout : Nat
  session_ttl : Int
  _session : Option Session
  _session_created_at : Option Int
  nextSid : Nat
  deriving DecidableEq, Repr

/-- Model of `UniFiApiClient.__init__`: rejects a falsy API key, then
stores the configuration (`session_ttl` is `timedelta(minutes=...)`, held
here in seconds) with no session and no timestamp. -/
def mkClient (api_key : String) (api_version : String) (timeout : Nat)
    (session_ttl_minutes : Nat) : Except PyErr Client :=
  if api_key.isEmpty then .error (.valueError "API key cannot be empty")
  else
    .ok { api_key := api_key, api_version := api_version,
          base_url := "https://api.ui.com/" ++ api_version,
          timeout := timeout, session_ttl := (session_ttl_minutes : Int) * 60,
          _session := none, _session_created_at := none, nextSid := 0 }

/-- Model of `UniFiApiClient._create_session`: a fresh session with the
default headers and the pooled adapter of the source. -/
def create_session (c : Client) : Session :=
  { sid := c.nextSid,
    headers := [("Accept", "application/json"), ("X-API-Key", c.api_key),
                ("User-Agent", "UniFiApiClient/1.0")],
    adapter := { pool_connections := 10, pool_maxsize := 20, max_retries := 3,
                 pool_block := false } }

/-- Model of the `session` property at one `datetime.now()` reading `now`:
when no session exists, or it was never timestamped, or
`now - created_at > session_ttl`, the old session (if any) is closed and a
fresh one is created and timestamped; otherwise the current session is
returned untouched. Result: the returned session, the updated client, and
the sids closed. -/
def acquireSession (c : Client) (now : Int) : Session × Client × List Nat :=
  match c._session, c._session_created_at with
  | some s, some t =>
    if now - t > c.session_ttl then
      let s2 := create_session c
      (s2, { c with _session := some s2, _session_created_at := some now,
                    nextSid := c.nextSid + 1 }, [s.sid])
    else
      (s, c, [])
  | some s, none =>
    let s2 := create_session c
    (s2, { c with _session := some s2, _session_created_at := some now,
                  nextSid := c.nextSid + 1 }, [s.sid])
  | none, _ =>
    let s2 := create_session c
    (s2, { c with _session := some s2, _session_created_at := some now,
                  nextSid := c.nextSid + 1 }, [])

/-- Sequence of acquisitions at the given `datetime.now()` readings,
threading the client state; returns the sessions handed out and the final
state. -/
def acquireSeq (c : Client) : List Int → List Session × Client
  | [] => ([], c)
  | now :: rest =>
    let r := acquireSession c now
    let r2 := acquireSeq r.2.1 rest
    (r.1 :: r2.1, r2.2)

/-- Model of `UniFiApiClient.refresh_session`: closes the session if one
exists and clears both the session and its timestamp unconditionally. -/
def refresh_session (c : Client) : Client × List Nat :=
  let closed := match c._session with
    | some s => [s.sid]
    | none => []
  ({ c with _session := none, _session_created_at := none }, closed)

/-- Model of `UniFiApiClient.close`: when a session exists it is closed and
both the session and its timestamp are cleared; otherwise nothing happens.
The operation is total (it cannot raise). -/
def close (c : Client) : Client × List Nat :=
  match c._session with
  | some s => ({ c with _session := none, _session_created_at := none }, [s.sid])
  | none => (c, [])

/-- Invariant relating the session slot and its timestamp: one is `None`
exactly when the other is. -/
def sessionTimestampInv (c : Client) : Prop :=
  c._session = none ↔ c._session_created_at = none

/-- Identity-freshness invariant of the allocation counter: any live
session was allocated before the counter's current value. -/
def sidFresh (c : Client) : Prop :=
  ∀ s, c._session = some s → s.sid < c.nextSid

/-! ### The request executor `_make_request`. -/

/-- Outcome of one `_attempt_request()` call, as decided by the network:
a decoded JSON body (abstracted to a `Nat` tag), an HTTP error status
(`raise_for_status`), a `requests.Timeout`, another
`requests.RequestException`, or a `ValueError` from `response.json()`. -/
inductive Outcome where
  | success (body : Nat)
  | httpError (status : Nat)
  | timedOut
  | requestExc (msg : String)
  | invalidJson
  deriving DecidableEq, Repr

/-- What a `_make_request` call surfaces to its caller: either a decoded
body, or a `UniFiApiError` (the normalized error kind), or a raw `requests`
exception that escaped normalization. -/
inductive Surfaced where
  | unifiApiError (msg : String)
  | rawTimeout
  | rawRequestExc (msg : String)
  | rawInvalidJson
  deriving DecidableEq, Repr

/-- Observable behavior of one `_make_request` call: its result, how many
request attempts were issued, and how many times `refresh_session` was
forced. -/
structure ExecTrace where
  result : Except Surfaced Nat
  attempts : Nat
  refreshes : Nat
  deriving Repr

/-- Model of `UniFiApiClient._make_request`, with the outcome of the n-th
attempt supplied by the oracle `attempt`. The outer `try` normalizes every
first-attempt failure into `UniFiApiError`; on a 401/403 it refreshes the
session and retries once, but the retry sits inside the `except HTTPError`
handler whose own `except` clause catches only `requests.HTTPError`, so a
retry failing with a timeout, another transport error, or a JSON decode
error escapes as the raw exception. -/
def make_request (timeout : Nat) (attempt : Nat → Outcome) : ExecTrace :=
  match attempt 0 with
  | .success v => ⟨.ok v, 1, 0⟩
  | .httpError s =>
    if s = 401 ∨ s = 403 then
      match attempt 1 with
      | .success v => ⟨.ok v, 2, 1⟩
      | .httpError s2 =>
        ⟨.error (.unifiApiError ("API request failed after retry: " ++ toString s2)), 2, 1⟩
      | .timedOut => ⟨.error .rawTimeout, 2, 1⟩
      | .requestExc m => ⟨.error (.rawRequestExc m), 2, 1⟩
      | .invalidJson => ⟨.error .rawInvalidJson, 2, 1⟩
    else
      ⟨.error (.unifiApiError ("API request failed: " ++ toString s)), 1, 0⟩
  | .timedOut =>
    ⟨.error (.unifiApiError ("Request timed out after " ++ toString timeout ++ " seconds")), 1, 0⟩
  | .requestExc m => ⟨.error (.unifiApiError ("Request failed: " ++ m)), 1, 0⟩
  | .invalidJson => ⟨.error (.unifiApiError "Invalid JSON response from API"), 1, 0⟩

/-! ### Concrete states used by witnesses. -/

/-- Predicate: the endpoint call raised a `ValueError` (validation failure)
instead of reaching the network layer. -/
def raisesValueError (r : Except PyErr Request) : Prop :=
  ∃ m, r = .error (.valueError m)

/-- A session as allocated first (sid 0) by a client with API key `k`. -/
def sampleSession : Session :=
  { sid := 0,
    headers := [("Accept", "application/json"), ("X-API-Key", "k"),
                ("User-Agent", "UniFiApiClient/1.0")],
    adapter := { pool_connections := 10, pool_maxsize := 20, max_retries := 3,
                 pool_block := false } }

/-- A freshly constructed client (`mkClient "k" "v1" 30 55`). -/
def initClient : Client :=
  { api_key := "k", api_version := "v1", base_url := "https://api.ui.com/v1",
    timeout := 30, session_ttl := 3300,
    _session := none, _session_created_at := none, nextSid := 0 }

/-- The same client after one session was created at time 0. -/
def sampleLiveClient : Client :=
  { initClient with _session := some sampleSession,
                    _session_created_at := some 0, nextSid := 1 }

/-! ### Claim theorems. -/

/-- C1: the claim says that whenever the first attempt fails with 401/403
the executor refreshes, retries exactly once, and surfaces every retry
failure as the normalized `UniFiApiError`. The code refutes the
normalization part: at the concrete input where the first attempt returns
HTTP 401 and the retry raises `requests.Timeout`, the retry error escapes
the `except requests.HTTPError` handler un-normalized, so the surfaced
error is the raw timeout and not a `UniFiApiError` (the retry is still
performed exactly once, with one forced refresh and no third attempt). -/
theorem make_request_retry_timeout_escapes_raw :
    (make_request 30 (fun n => if n = 0 then .httpError 401 else .timedOut)).result =
      .error .rawTimeout ∧
    (make_request 30 (fun n => if n = 0 then .httpError 401 else .timedOut)).attempts = 2 ∧
    (make_request 30 (fun n => if n = 0 then .httpError 401 else .timedOut)).refreshes = 1 ∧
    ∀ m, (make_request 30 (fun n => if n = 0 then .httpError 401 else .timedOut)).result ≠
      .error (.unifiApiError m) := by
  refine ⟨rfl, rfl, rfl, fun m h => ?_⟩
  rw [show (make_request 30 (fun n => if n = 0 then .httpError 401 else .timedOut)).result =
      .error .rawTimeout from rfl] at h
  exact Surfaced.noConfusion (Except.error.inj h)

/-- C6: supplying a truthy `duration` together with a truthy timestamp
bound makes both `get_isp_metrics` and `query_isp_metrics` raise a
`ValueError` synchronously (the result is an error, so no request is ever
built for the network layer). -/
theorem isp_metrics_duration_conflict (type : String)
    (begin_timestamp end_timestamp duration : Option String)
    (site_ids host_ids : Option (List String))
    (hd : truthy duration = true)
    (hbe : (truthy begin_timestamp || truthy end_timestamp) = true) :
    raisesValueError (get_isp_metrics type begin_timestamp end_timestamp duration) ∧
    raisesValueError
      (query_isp_metrics type begin_timestamp end_timestamp duration site_ids host_ids) := by
  have hcond : (truthy duration && (truthy begin_timestamp || truthy end_timestamp)) = true := by
    simp [hd, hbe]
  constructor
  · unfold get_isp_metrics
    by_cases hty : type = "5m" ∨ type = "1h"
    · rw [if_neg (not_not_intro hty), if_pos hcond]
      exact ⟨_, rfl⟩
    · rw [if_pos hty]
      exact ⟨_, rfl⟩
  · unfold query_isp_metrics
    by_cases hty : type = "5m" ∨ type = "1h"
    · rw [if_neg (not_not_intro hty), if_pos hcond]
      exact ⟨_, rfl⟩
    · rw [if_pos hty]
      exact ⟨_, rfl⟩

/-- C6 witness: `duration="24h"` together with a begin timestamp on both
ISP-metrics methods. -/
theorem isp_metrics_duration_conflict_witness :
    raisesValueError
      (get_isp_metrics "5m" (some "2024-03-15T10:00:00.000Z") none (some "24h")) ∧
    raisesValueError
      (query_isp_metrics "5m" (some "2024-03-15T10:00:00.000Z") none (some "24h") none none) :=
  isp_metrics_duration_conflict "5m" (some "2024-03-15T10:00:00.000Z") none (some "24h")
    none none (by decide) (by decide)

/-- C7: for every integer page size outside `[1, 100]` each of the three
paginated endpoint methods raises the page-size `ValueError` before any
network interaction; for page sizes inside `[1, 100]` the decorator passes
the call through unchanged to the wrapped endpoint body. -/
theorem page_size_validation (page_size : Int) (next_token time : Option String)
    (host_ids : Option (List String)) :
    (¬ (1 ≤ page_size ∧ page_size ≤ 100) →
      list_hosts page_size next_token =
        .error (.valueError "page_size must be between 1 and 100") ∧
      list_sites page_size next_token =
        .error (.valueError "page_size must be between 1 and 100") ∧
      list_devices time host_ids page_size next_token =
        .error (.valueError "page_size must be between 1 and 100")) ∧
    ((1 ≤ page_size ∧ page_size ≤ 100) →
      list_hosts page_size next_token = list_hosts_request page_size next_token ∧
      list_sites page_size next_token = list_sites_request page_size next_token ∧
      list_devices time host_ids page_size next_token =
        list_devices_request time host_ids page_size next_token) := by
  constructor
  · intro h
    exact ⟨by rw [list_hosts, validate_page_size, if_pos h],
           by rw [list_sites, validate_page_size, if_pos h],
           by rw [list_devices, validate_page_size, if_pos h]⟩
  · intro h
    exact ⟨by rw [list_hosts, validate_page_size, if_neg (not_not_intro h)],
           by rw [list_sites, validate_page_size, if_neg (not_not_intro h)],
           by rw [list_devices, validate_page_size, if_neg (not_not_intro h)]⟩

/-- C7 witness: page size 101 is rejected by `list_hosts` and page size 10
is passed through unchanged. -/
theorem page_size_validation_witness :
    list_hosts 101 none = .error (.valueError "page_size must be between 1 and 100") ∧
    list_hosts 10 none = list_hosts_request 10 none :=
  ⟨((page_size_validation 101 none none none).1 (by decide)).1,
   ((page_size_validation 10 none none none).2 (by decide)).1⟩

/-- C8: `close` is total in the model (it cannot raise); after closing, the
client holds no session and no creation timestamp, a second `close` is a
no-op that closes nothing, and closing a client that never created a
session changes nothing. -/
theorem close_idempotent_clears (c : Client) (hinv : sessionTimestampInv c) :
    (close c).1._session = none ∧
    (close c).1._session_created_at = none ∧
    close (close c).1 = ((close c).1, []) ∧
    (c._session = none → close c = (c, [])) := by
  cases hs : c._session with
  | some s => simp [close, hs]
  | none =>
    have ht : c._session_created_at = none := hinv.mp hs
    simp [close, hs, ht]

/-- C8 witness: closing a live client clears it, a second close is a no-op,
and closing a never-used client is a no-op. -/
theorem close_idempotent_clears_witness :
    ((close sampleLiveClient).1._session = none ∧
      (close sampleLiveClient).1._session_created_at = none ∧
      close (close sampleLiveClient).1 = ((close sampleLiveClient).1, []) ∧
      (sampleLiveClient._session = none → close sampleLiveClient = (sampleLiveClient, []))) ∧
    (initClient._session = none → close initClient = (initClient, [])) :=
  ⟨close_idempotent_clears sampleLiveClient
      (by simp [sampleLiveClient, initClient, sessionTimestampInv]),
   (close_idempotent_clears initClient
      (by simp [initClient, sessionTimestampInv])).2.2.2⟩

/-- C10: every operation of the client preserves the invariant that the
session slot is `None` exactly when the creation timestamp is `None`:
construction establishes it, and session acquisition, `refresh_session` and
`close` preserve it. -/
theorem session_timestamp_invariant_preserved :
    (∀ api_key api_version timeout ttl c,
        mkClient api_key api_version timeout ttl = .ok c → sessionTimestampInv c) ∧
    (∀ c now, sessionTimestampInv c → sessionTimestampInv (acquireSession c now).2.1) ∧
    (∀ c, sessionTimestampInv c → sessionTimestampInv (refresh_session c).1) ∧
    (∀ c, sessionTimestampInv c → sessionTimestampInv (close c).1) := by
  refine ⟨?_, ?_, ?_, ?_⟩
  · intro api_key api_version timeout ttl c h
    unfold mkClient at h
    by_cases hk : api_key.isEmpty = true
    · rw [if_pos hk] at h
      exact Except.noConfusion h
    · rw [if_neg hk] at h
      cases Except.ok.inj h
      simp [sessionTimestampInv]
  · intro c now hinv
    unfold acquireSession
    cases hs : c._session with
    | none => simp [sessionTimestampInv]
    | some s =>
      cases ht : c._session_created_at with
      | none => simp [sessionTimestampInv]
      | some t =>
        by_cases hexp : now - t > c.session_ttl
        · simp [hexp, sessionTimestampInv]
        · simpa [hexp] using hinv
  · intro c _
    simp [refresh_session, sessionTimestampInv]
  · intro c hinv
    cases hs : c._session with
    | some s => simp [close, hs, sessionTimestampInv]
    | none =>
      simp only [close, hs]
      exact hinv

/-- C10 witness: the invariant holds after construction and after each
operation applied to a live client. -/
theorem session_timestamp_invariant_preserved_witness :
    sessionTimestampInv initClient ∧
    sessionTimestampInv (acquireSession sampleLiveClient 4000).2.1 ∧
    sessionTimestampInv (refresh_session sampleLiveClient).1 ∧
    sessionTimestampInv (close sampleLiveClient).1 :=
  ⟨session_timestamp_invariant_preserved.1 "k" "v1" 30 55 initClient rfl,
   session_timestamp_invariant_preserved.2.1 sampleLiveClient 4000
     (by simp [sampleLiveClient, initClient, sessionTimestampInv]),
   session_timestamp_invariant_preserved.2.2.1 sampleLiveClient
     (by simp [sampleLiveClient, initClient, sessionTimestampInv]),
   session_timestamp_invariant_preserved.2.2.2 sampleLiveClient
     (by simp [sampleLiveClient, initClient, sessionTimestampInv])⟩

/-- C2: when a session exists, is timestamped, and its creation time is
more than the TTL before `now`, the next acquisition returns a session
distinct from the old one, closes the old session exactly once (its sid
appears exactly once in the closed list), installs the new session, and
records `now` as the new creation timestamp. The `sidFresh` hypothesis is
the identity-freshness invariant of the allocation counter. -/
theorem acquireSession_expired_rotates (c : Client) (s : Session) (t now : Int)
    (hs : c._session = some s) (ht : c._session_created_at = some t)
    (hfresh : sidFresh c) (hexp : now - t > c.session_ttl) :
    (acquireSession c now).1 ≠ s ∧
    (acquireSession c now).2.2 = [s.sid] ∧
    (acquireSession c now).2.1._session = some (acquireSession c now).1 ∧
    (acquireSession c now).2.1._session_created_at = some now := by
  have hlt : s.sid < c.nextSid := hfresh s hs
  have heq : acquireSession c now =
      (create_session c,
        { c with _session := some (create_session c),
                 _session_created_at := some now, nextSid := c.nextSid + 1 },
        [s.sid]) := by
    unfold acquireSession
    rw [hs, ht]
    simp [hexp]
  rw [heq]
  refine ⟨fun h => ?_, rfl, rfl, rfl⟩
  have h2 : create_session c = s := h
  have hsid : s.sid = c.nextSid := by
    rw [← h2]
    rfl
  omega

/-- C2 witness: a live client whose session was created at time 0 with a
55-minute TTL, acquired at time 4000. -/
theorem acquireSession_expired_rotates_witness :
    (acquireSession sampleLiveClient 4000).1 ≠ sampleSession ∧
    (acquireSession sampleLiveClient 4000).2.2 = [sampleSession.sid] ∧
    (acquireSession sampleLiveClient 4000).2.1._session =
      some (acquireSession sampleLiveClient 4000).1 ∧
    (acquireSession sampleLiveClient 4000).2.1._session_created_at = some 4000 :=
  acquireSession_expired_rotates sampleLiveClient sampleSession 0 4000 rfl rfl
    (fun s h => by
      cases Option.some.inj h
      decide)
    (by decide)

/-- Helper for C3: an acquisition at most TTL after the creation timestamp
returns the existing session and leaves the state untouched. -/
theorem acquireSession_fresh_step (c : Client) (s : Session) (t now : Int)
    (hs : c._session = some s) (ht : c._session_created_at = some t)
    (hle : now - t ≤ c.session_ttl) :
    acquireSession c now = (s, c, []) := by
  unfold acquireSession
  rw [hs, ht]
  simp [not_lt.mpr hle]

/-- C3: for a sequence of acquisitions each occurring no more than TTL
after the session's creation timestamp, every acquisition returns the same
session object and the client state (session and creation timestamp
included) is unchanged throughout. -/
theorem acquireSeq_within_ttl_stable (c : Client) (s : Session) (t : Int)
    (times : List Int)
    (hs : c._session = some s) (ht : c._session_created_at = some t)
    (hall : ∀ now ∈ times, now - t ≤ c.session_ttl) :
    acquireSeq c times = (times.map (fun _ => s), c) := by
  induction times with
  | nil => rfl
  | cons now rest ih =>
    have h1 : acquireSession c now = (s, c, []) :=
      acquireSession_fresh_step c s t now hs ht (hall now (by simp))
    have h2 := ih (fun n hn => hall n (by simp [hn]))
    simp [acquireSeq, h1, h2]

/-- C3 witness: three acquisitions within the TTL window all return the
original session and leave the client unchanged. -/
theorem acquireSeq_within_ttl_stable_witness :
    acquireSeq sampleLiveClient [10, 20, 3300] =
      ([sampleSession, sampleSession, sampleSession], sampleLiveClient) :=
  acquireSeq_within_ttl_stable sampleLiveClient sampleSession 0 [10, 20, 3300]
    rfl rfl (by decide)

/-- C9: whenever a truthy end timestamp is supplied and the call reaches
the network layer, `get_isp_metrics` transmits it under the query-parameter
key `endTimestamp` and `query_isp_metrics` transmits it under the body key
`endTimestamp` — the same, correctly spelled key in both code paths,
matching the casing of `beginTimestamp`. -/
theorem end_timestamp_key_consistent (type : String)
    (begin_timestamp duration : Option String) (es : String)
    (site_ids host_ids : Option (List String))
    (hes : truthy (some es) = true) :
    (∀ r, get_isp_metrics type begin_timestamp (some es) duration = .ok r →
        ("endTimestamp", es) ∈ r.params) ∧
    (∀ r, query_isp_metrics type begin_timestamp (some es) duration site_ids host_ids =
        .ok r → ("endTimestamp", BodyVal.str es) ∈ r.body) := by
  have hne : es.isEmpty = false := by
    simpa [truthy] using hes
  constructor
  · intro r hr
    unfold get_isp_metrics at hr
    split at hr
    · exact Except.noConfusion hr
    · split at hr
      · exact Except.noConfusion hr
      · split at hr
        · exact Except.noConfusion hr
        · cases Except.ok.inj hr
          simp [optParam, hne]
  · intro r hr
    unfold query_isp_metrics at hr
    split at hr
    · exact Except.noConfusion hr
    · split at hr
      · exact Except.noConfusion hr
      · split at hr
        · exact Except.noConfusion hr
        · cases Except.ok.inj hr
          simp [optBody, hne]

/-- C9 witness: a concrete `get_isp_metrics` call carrying only an end
timestamp. -/
theorem end_timestamp_key_consistent_witness :
    ("endTimestamp", "2024-03-15T14:00:00.000Z") ∈
      (Request.mk "GET" "ea/isp-metrics/5m"
        [("endTimestamp", "2024-03-15T14:00:00.000Z")] []).params :=
  (end_timestamp_key_consistent "5m" none none "2024-03-15T14:00:00.000Z" none none
      (by decide)).1
    (Request.mk "GET" "ea/isp-metrics/5m"
      [("endTimestamp", "2024-03-15T14:00:00.000Z")] [])
    rfl

/-- C4 counterexample: the claim demands a `ValueError` whenever any
supplied timestamp is malformed, including when only one of the two bounds
is supplied. The code refutes this: `_validate_timestamp_range` returns
immediately unless both bounds are truthy, so `get_isp_metrics` with the
single malformed bound `begin_timestamp="bogus"` performs no format
validation and reaches the network layer with the raw value. -/
theorem get_isp_metrics_single_malformed_not_rejected :
    parseRFC3339 "bogus" = none ∧
    get_isp_metrics "5m" (some "bogus") none none =
      .ok { method := "GET", path := "ea/isp-metrics/5m",
            params := [("beginTimestamp", "bogus")], body := [] } :=
  ⟨by decide, rfl⟩

/-- Helper for C4: when both bounds are truthy and either fails to parse,
`_validate_timestamp_range` raises a `ValueError`. -/
theorem validateTimestampRange_malformed (bs es : String)
    (hbs : bs.isEmpty = false) (hes : es.isEmpty = false)
    (hbad : parseRFC3339 bs = none ∨ parseRFC3339 es = none) :
    ∃ m, validateTimestampRange (some bs) (some es) = .error (.valueError m) := by
  simp only [validateTimestampRange]
  rw [if_neg (by simp [hbs, hes])]
  rcases hbad with h | h
  · simp [validateRFC3339, h]
  · cases hpb : parseRFC3339 bs with
    | none => simp [validateRFC3339, hpb]
    | some bd => simp [validateRFC3339, hpb, h]

/-- C4 amended: a malformed timestamp bound raises a `ValueError` before
any network call when BOTH bounds are supplied (truthy); a single supplied
bound is never format-validated (see the counterexample). -/
theorem isp_metrics_both_bounds_malformed_rejected (type : String)
    (bs es : String) (duration : Option String)
    (site_ids host_ids : Option (List String))
    (hbs : bs.isEmpty = false) (hes : es.isEmpty = false)
    (hbad : parseRFC3339 bs = none ∨ parseRFC3339 es = none) :
    raisesValueError (get_isp_metrics type (some bs) (some es) duration) ∧
    raisesValueError
      (query_isp_metrics type (some bs) (some es) duration site_ids host_ids) := by
  obtain ⟨m, hm⟩ := validateTimestampRange_malformed bs es hbs hes hbad
  have htr : (truthy (some bs) || truthy (some es)) = true := by
    simp [truthy, hbs]
  constructor
  · unfold get_isp_metrics
    split
    · exact ⟨_, rfl⟩
    · split
      · exact ⟨_, rfl⟩
      · simp [raisesValueError, htr, hm]
  · unfold query_isp_metrics
    split
    · exact ⟨_, rfl⟩
    · split
      · exact ⟨_, rfl⟩
      · simp [raisesValueError, htr, hm]

/-- C4 amended witness: two malformed bounds supplied together are
rejected by both ISP-metrics methods. -/
theorem isp_metrics_both_bounds_malformed_rejected_witness :
    raisesValueError (get_isp_metrics "5m" (some "x") (some "y") none) ∧
    raisesValueError (query_isp_metrics "5m" (some "x") (some "y") none none none) :=
  isp_metrics_both_bounds_malformed_rejected "5m" "x" "y" none none none
    rfl rfl (Or.inl (by decide))

/-- C5 counterexample: with a `Z`-suffixed begin bound and a
numeric-offset end bound, both bounds are well-formed and the begin instant
is strictly before the end instant, yet the range check raises a
`TypeError` (CPython cannot compare the offset-naive datetime produced by
the `Z` format with the offset-aware one produced by the `%z` format)
rather than passing validation. -/
theorem validate_range_mixed_kinds_type_error :
    parseRFC3339 "2024-03-15T10:00:00.000Z" =
      some { year := 2024, month := 3, day := 15, hour := 10, minute := 0,
             second := 0, usec := 0, tzOffsetUs := none } ∧
    parseRFC3339 "2024-03-15T14:00:00.000+00:00" =
      some { year := 2024, month := 3, day := 15, hour := 14, minute := 0,
             second := 0, usec := 0, tzOffsetUs := some 0 } ∧
    dtInstantUs { year := 2024, month := 3, day := 15, hour := 10, minute := 0,
                  second := 0, usec := 0, tzOffsetUs := none } <
      dtInstantUs { year := 2024, month := 3, day := 15, hour := 14, minute := 0,
                    second := 0, usec := 0, tzOffsetUs := some 0 } ∧
    validateTimestampRange (some "2024-03-15T10:00:00.000Z")
        (some "2024-03-15T14:00:00.000+00:00") =
      .error (.typeError "cannot compare offset-naive and offset-aware datetimes") :=
  ⟨by decide, by decide, by decide, rfl⟩

/-- Helper for C5: on two datetimes of the same offset kind, the CPython
comparison succeeds and agrees with the instant keys. -/
theorem dtLe_same_kind (a b : DT) (h : a.tzOffsetUs.isSome = b.tzOffsetUs.isSome) :
    dtLe a b = .ok (decide (dtInstantUs a ≤ dtInstantUs b)) := by
  rcases ha : a.tzOffsetUs with _ | oa <;> rcases hb : b.tzOffsetUs with _ | ob
  · simp [dtLe, ha, hb, dtInstantUs]
  · simp [ha, hb] at h
  · simp [ha, hb] at h
  · simp [dtLe, ha, hb]

/-- C5 amended: for every pair of well-formed timestamp bounds of the same
offset kind (both `Z`-suffixed or both numeric-offset, the domain on which
CPython defines the comparison), the range check raises the
strictly-greater `ValueError` exactly when the end instant is at or before
the begin instant, and passes without error when the begin instant is
strictly before the end instant. Mixed offset kinds instead raise a
`TypeError` (see the counterexample). -/
theorem validate_range_same_kind_correct (bs es : String) (bd ed : DT)
    (hbs : bs.isEmpty = false) (hes : es.isEmpty = false)
    (hb : parseRFC3339 bs = some bd) (he : parseRFC3339 es = some ed)
    (hkind : bd.tzOffsetUs.isSome = ed.tzOffsetUs.isSome) :
    (dtInstantUs ed ≤ dtInstantUs bd →
      validateTimestampRange (some bs) (some es) =
        .error (.valueError "end_timestamp must be strictly greater than begin_timestamp")) ∧
    (dtInstantUs bd < dtInstantUs ed →
      validateTimestampRange (some bs) (some es) = .ok ()) := by
  have hdtle : dtLe ed bd = .ok (decide (dtInstantUs ed ≤ dtInstantUs bd)) :=
    dtLe_same_kind ed bd (hkind.symm)
  have hrange : ∀ r : Except PyErr Unit,
      (match dtLe ed bd with
       | .error err => .error err
       | .ok le =>
         if le then
           Except.error (PyErr.valueError
             "end_timestamp must be strictly greater than begin_timestamp")
         else .ok ()) = r →
      validateTimestampRange (some bs) (some es) = r := by
    intro r hr
    simp only [validateTimestampRange]
    rw [if_neg (by simp [hbs, hes])]
    simpa [validateRFC3339, hb, he] using hr
  constructor
  · intro hle
    apply hrange
    rw [hdtle]
    simp [hle]
  · intro hlt
    apply hrange
    rw [hdtle]
    simp [not_le.mpr hlt]

/-- C5 amended witness: two `Z`-suffixed bounds in the right order pass
validation. -/
theorem validate_range_same_kind_correct_witness :
    validateTimestampRange (some "2024-03-15T10:00:00.000Z")
      (some "2024-03-15T14:00:00.000Z") = .ok () :=
  (validate_range_same_kind_correct "2024-03-15T10:00:00.000Z" "2024-03-15T14:00:00.000Z"
      { year := 2024, month := 3, day := 15, hour := 10, minute := 0,
        second := 0, usec := 0, tzOffsetUs := none }
      { year := 2024, month := 3, day := 15, hour := 14, minute := 0,
        second := 0, usec := 0, tzOffsetUs := none }
      rfl rfl (by decide) (by decide) rfl).2 (by decide)

end UnifiClient
